import Mathlib

/-
Shallow embedding of src/duckDB/duckdb_wrapper.py (class DuckDBWrapper).

The embedded database engine (the duckdb module) and the identity service
(boto3/STS) are external collaborators: they are modelled as oracles
(`Engine`, `StsSession`) passed to each operation.  Every operation
returns, next to its Python result (an `Except` of the raised error or
the returned value), the ordered trace of engine interactions it
performed, so that "performs no engine interaction" is the statement
that this trace is empty.

Python-specific behaviours are embedded explicitly:
  * `self._conn` is `Option Conn`; calling `.execute` on `None` raises
    `AttributeError` (modelled as `PyError.attributeError`);
  * `dict(zip(columns, row))` is `pyDict (columns.zip row)` with
    Python's left-to-right insert-or-overwrite semantics;
  * truthiness of an optional list argument (`if select_columns:`) is
    `pyTruthyList`: `None` and the empty list are both falsy;
  * a generator function call runs none of its body: calling
    `execute_query_fetch_one` only builds a `Gen` value, and the body
    runs in `Gen.drain`, against the facade state at drain time.
-/

namespace DuckDB

/-- Dynamically typed scalar values carried in rows. -/
inductive Value where
  | int (n : Int)
  | str (s : String)
  | boolean (b : Bool)
  | null
deriving DecidableEq

/-- A Python dict row: association list in insertion order. -/
abbrev Row := List (String × Value)

/-- The optional `params` argument of the query methods. -/
inductive PyParams where
  | positional (vs : List Value)
  | named (kvs : List (String × Value))
deriving DecidableEq

/-- The Python exception classes the wrapper can raise or propagate. -/
inductive PyError where
  | connectionError (msg : String)
  | attributeError (msg : String)
  | duckdbError (msg : String)
  | valueError (msg : String)
  | credentialError (msg : String)
deriving DecidableEq

/-- Result cursor of `conn.execute`: `description` is the ordered list of
column names (the `desc[0]` of each description entry), `rows` the rows
`fetchall`/`fetchone` will produce, in order. -/
structure Cursor where
  description : List String
  rows : List (List Value)
deriving DecidableEq

/-- The embedded engine as an oracle: what `conn.execute`,
`conn.install_extension` and `conn.load_extension` do. An `Except.error`
is a raised `duckdb.Error` with that message. -/
structure Engine where
  exec : String → Option PyParams → Except String Cursor
  installExt : String → Except String Unit
  loadExt : String → Except String Unit

/-- One observable interaction with the engine. -/
inductive EngineCall where
  | connectCall (dbFile : Option String)
  | execCall (stmt : String)
  | installCall (name : String)
  | loadCall (name : String)
  | closeCall
deriving DecidableEq

/-- The session state of an open connection: the `SET key='value'`
configuration pairs applied so far. -/
structure Conn where
  config : List (String × String)
deriving DecidableEq

/-- The facade state: `conn` models `self._conn` (`none` = not opened or
closed), `dbFile` models `self.db_file`. -/
structure DuckDBWrapper where
  conn : Option Conn
  dbFile : Option String
deriving DecidableEq

/-- Message of the AttributeError raised by `None.execute(...)`. -/
def noneAttrMsg : String := "NoneType object has no attribute execute"

/-- Message of the ConnectionError raised by `connect_to_s3`. -/
def connectMsg : String := "DuckDB connection not established. Call connect() first."

/-- Python truthiness of an `Optional[List[str]]` argument:
`None` and `[]` are falsy. -/
def pyTruthyList : Option (List String) → Bool
  | none => false
  | some l => !l.isEmpty

/-- Python truthiness of an `Optional[str]`: `None` and `""` are falsy. -/
def pyTruthyStr : Option String → Bool
  | none => false
  | some s => !s.isEmpty

/-- Insert key `k` with value `v` into a Python dict: overwrite in place
when `k` is present, else append. -/
def pyDictInsert (d : Row) (k : String) (v : Value) : Row :=
  if d.any (fun p => p.1 == k) then
    d.map (fun p => if p.1 == k then (k, v) else p)
  else d ++ [(k, v)]

/-- Python `dict(pairs)`: left-to-right insertion. -/
def pyDict (pairs : List (String × Value)) : Row :=
  pairs.foldl (fun d p => pyDictInsert d p.1 p.2) []

/-- Method `create_duckdb_connection`: open the engine handle, file-backed
when `self.db_file` is truthy, else in-memory. -/
def create_duckdb_connection (w : DuckDBWrapper) : DuckDBWrapper × List EngineCall :=
  if pyTruthyStr w.dbFile then
    ({ w with conn := some { config := [] } }, [EngineCall.connectCall w.dbFile])
  else
    ({ w with conn := some { config := [] } }, [EngineCall.connectCall none])

/-- Method `close`: close and clear the handle when one is open, else no-op. -/
def close (w : DuckDBWrapper) : DuckDBWrapper × List EngineCall :=
  match w.conn with
  | none => (w, [])
  | some _ => ({ w with conn := none }, [EngineCall.closeCall])

/-- The `with DuckDBWrapper(...) as db:` protocol: `__enter__` opens the
connection, the body runs (returning normally or raising), `__exit__`
calls `close` either way. -/
def withDuckDBWrapper {α : Type} (w : DuckDBWrapper)
    (body : DuckDBWrapper → Except PyError α × DuckDBWrapper) :
    Except PyError α × DuckDBWrapper :=
  let w1 := (create_duckdb_connection w).1
  let r := body w1
  (r.1, (close r.2).1)

/-- Method `execute_query`: run the statement, capture the column names
from the cursor description, fetch all rows and build one dict per row.
A `duckdb.Error` or any other exception is logged and re-raised. -/
def execute_query (w : DuckDBWrapper) (E : Engine) (query : String)
    (params : Option PyParams) : Except PyError (List Row) × List EngineCall :=
  match w.conn with
  | none => (Except.error (PyError.attributeError noneAttrMsg), [])
  | some _ =>
    match E.exec query params with
    | Except.error m => (Except.error (PyError.duckdbError m), [EngineCall.execCall query])
    | Except.ok cur =>
      (Except.ok (cur.rows.map (fun row => pyDict (cur.description.zip row))),
       [EngineCall.execCall query])

/-- A suspended generator returned by `execute_query_fetch_one`: it holds
the arguments; none of the body has run yet. -/
structure Gen where
  query : String
  params : Option PyParams
deriving DecidableEq

/-- Method `execute_query_fetch_one` at call time: a generator function
call creates the suspended generator and runs none of the body, so there
is no engine interaction and no exception regardless of the facade state. -/
def execute_query_fetch_one (_w : DuckDBWrapper) (_E : Engine) (query : String)
    (params : Option PyParams) : Gen × List EngineCall :=
  (Gen.mk query params, [])

/-- The `while True: row = result.fetchone(); ... yield dict(zip(columns, row))`
loop: one dict per cursor row, in order, until the `None` sentinel. -/
def fetchLoop (columns : List String) : List (List Value) → List Row
  | [] => []
  | row :: rest => pyDict (columns.zip row) :: fetchLoop columns rest

/-- Draining the generator runs the body of `execute_query_fetch_one`
against the facade state at drain time: execute the statement, capture the
columns, then fetch rows one at a time until exhaustion. -/
def Gen.drain (g : Gen) (w : DuckDBWrapper) (E : Engine) :
    Except PyError (List Row) × List EngineCall :=
  match w.conn with
  | none => (Except.error (PyError.attributeError noneAttrMsg), [])
  | some _ =>
    match E.exec g.query g.params with
    | Except.error m => (Except.error (PyError.duckdbError m), [EngineCall.execCall g.query])
    | Except.ok cur =>
      (Except.ok (fetchLoop cur.description cur.rows), [EngineCall.execCall g.query])

/-- The frozen temporary credentials returned by
`session.get_credentials().get_frozen_credentials()`. -/
structure FrozenCredentials where
  access_key : String
  secret_key : String
  token : String
deriving DecidableEq

/-- The boto3 STS identity service as an oracle: outcome of
`sts.get_caller_identity()`, of the credential fetch, and the session's
`region_name`. An `Except.error` is the raised botocore exception. -/
structure StsSession where
  get_caller_identity : Except PyError Unit
  get_frozen_credentials : Except PyError FrozenCredentials
  region_name : String

/-- Apply one `SET k='v'` to the session configuration: overwrite the key
when present, else append. -/
def setConfigKey (cfg : List (String × String)) (k v : String) :
    List (String × String) :=
  if cfg.any (fun p => p.1 == k) then
    cfg.map (fun p => if p.1 == k then (k, v) else p)
  else cfg ++ [(k, v)]

/-- Inner function `set_s3_credentials`: for each key/value pair of
`aws_config`, in order, execute `SET key='value'`; a raised engine error
stops the loop and propagates, leaving the earlier pairs applied. -/
def set_s3_credentials (E : Engine) (c : Conn) :
    List (String × String) → Except PyError Unit × Conn × List EngineCall
  | [] => (Except.ok (), c, [])
  | (k, v) :: rest =>
    let stmt := "SET " ++ k ++ "='" ++ v ++ "'"
    match E.exec stmt none with
    | Except.error m =>
      (Except.error (PyError.duckdbError m), c, [EngineCall.execCall stmt])
    | Except.ok _ =>
      let r := set_s3_credentials E { config := setConfigKey c.config k v } rest
      (r.1, r.2.1, EngineCall.execCall stmt :: r.2.2)

/-- Inner function `install_and_load_extensions`: install then load each
extension in order; a raised engine error stops the loop and propagates. -/
def install_and_load_extensions (E : Engine) :
    List String → Except PyError Unit × List EngineCall
  | [] => (Except.ok (), [])
  | ex :: rest =>
    match E.installExt ex with
    | Except.error m =>
      (Except.error (PyError.duckdbError m), [EngineCall.installCall ex])
    | Except.ok _ =>
      match E.loadExt ex with
      | Except.error m =>
        (Except.error (PyError.duckdbError m),
         [EngineCall.installCall ex, EngineCall.loadCall ex])
      | Except.ok _ =>
        let r := install_and_load_extensions E rest
        (r.1, EngineCall.installCall ex :: EngineCall.loadCall ex :: r.2)

/-- Method `connect_to_s3`: raise `ConnectionError` when no connection is
open; otherwise check the caller identity, fetch the frozen credentials,
build `aws_config` in its fixed insertion order, apply it with
`set_s3_credentials`, then install and load `httpfs` and `aws`. Every
failure propagates unmodified; the returned wrapper is the facade state
after the call (unchanged when a step before the first `SET` failed). -/
def connect_to_s3 (w : DuckDBWrapper) (E : Engine) (session : StsSession) :
    Except PyError Unit × DuckDBWrapper × List EngineCall :=
  match w.conn with
  | none => (Except.error (PyError.connectionError connectMsg), w, [])
  | some c =>
    match session.get_caller_identity with
    | Except.error e => (Except.error e, w, [])
    | Except.ok _ =>
      match session.get_frozen_credentials with
      | Except.error e => (Except.error e, w, [])
      | Except.ok creds =>
        let aws_config :=
          [("s3_access_key_id", creds.access_key),
           ("s3_secret_access_key", creds.secret_key),
           ("s3_session_token", creds.token),
           ("s3_region", session.region_name)]
        match set_s3_credentials E c aws_config with
        | (Except.error e, c2, tr) =>
          (Except.error e, { w with conn := some c2 }, tr)
        | (Except.ok _, c2, tr1) =>
          match install_and_load_extensions E ["httpfs", "aws"] with
          | (Except.error e, tr2) =>
            (Except.error e, { w with conn := some c2 }, tr1 ++ tr2)
          | (Except.ok _, tr2) =>
            (Except.ok (), { w with conn := some c2 }, tr1 ++ tr2)

/-- Method `save_parquet`: stage the dataset as `temp_table`, copy it to
the destination file, then drop `temp_table`; each engine error is logged
and re-raised, and stops the sequence there. -/
def save_parquet (w : DuckDBWrapper) (E : Engine) (_data : List Row)
    (complete_file_name : String) : Except PyError Unit × List EngineCall :=
  match w.conn with
  | none => (Except.error (PyError.attributeError noneAttrMsg), [])
  | some _ =>
    let q1 := "CREATE TEMPORARY TABLE temp_table AS SELECT * FROM df"
    match E.exec q1 none with
    | Except.error m => (Except.error (PyError.duckdbError m), [EngineCall.execCall q1])
    | Except.ok _ =>
      let q2 := "COPY temp_table TO '" ++ complete_file_name ++ "'"
      match E.exec q2 none with
      | Except.error m =>
        (Except.error (PyError.duckdbError m),
         [EngineCall.execCall q1, EngineCall.execCall q2])
      | Except.ok _ =>
        let q3 := "DROP TABLE temp_table"
        match E.exec q3 none with
        | Except.error m =>
          (Except.error (PyError.duckdbError m),
           [EngineCall.execCall q1, EngineCall.execCall q2, EngineCall.execCall q3])
        | Except.ok _ =>
          (Except.ok (),
           [EngineCall.execCall q1, EngineCall.execCall q2, EngineCall.execCall q3])

/-- The SELECT statement `read_file` builds: projected columns when
`select_columns` is truthy (else `*`), the `read_csv`/`read_parquet` table
function over the quoted path, and, when `filter_conditions` is truthy, a
WHERE clause of the individually parenthesized conditions joined by AND. -/
def read_file_query (file_path file_type : String)
    (select_columns filter_conditions : Option (List String)) : String :=
  let base :=
    if pyTruthyList select_columns then
      "SELECT " ++ String.intercalate ", " (select_columns.getD []) ++
        " FROM read_" ++ file_type ++ "('" ++ file_path ++ "')"
    else
      "SELECT * FROM read_" ++ file_type ++ "('" ++ file_path ++ "')"
  if pyTruthyList filter_conditions then
    base ++ " WHERE " ++
      String.intercalate " AND "
        ((filter_conditions.getD []).map (fun c => "(" ++ c ++ ")"))
  else base

/-- Method `read_file`: raise `ValueError` when `file_type` is not csv or
parquet, before anything else; otherwise build the SELECT statement and
run it through `execute_query`. -/
def read_file (w : DuckDBWrapper) (E : Engine) (file_path file_type : String)
    (select_columns filter_conditions : Option (List String)) :
    Except PyError (List Row) × List EngineCall :=
  if !(["csv", "parquet"].contains file_type) then
    (Except.error (PyError.valueError "file_type must be either 'csv' or 'parquet'"), [])
  else
    execute_query w E
      (read_file_query file_path file_type select_columns filter_conditions) none

/-- Method `create_table`: raise `ValueError` on an empty dataset before
any engine interaction; otherwise register the dataset and execute
`CREATE TABLE <table_name> AS SELECT * FROM df` with the name verbatim. -/
def create_table (w : DuckDBWrapper) (E : Engine) (table_name : String)
    (data : List Row) : Except PyError Unit × List EngineCall :=
  if data.isEmpty then
    (Except.error (PyError.valueError "No data provided to create the table"), [])
  else
    match w.conn with
    | none => (Except.error (PyError.attributeError noneAttrMsg), [])
    | some _ =>
      let query := "CREATE TABLE " ++ table_name ++ " AS SELECT * FROM df"
      match E.exec query none with
      | Except.error m =>
        (Except.error (PyError.duckdbError m), [EngineCall.execCall query])
      | Except.ok _ => (Except.ok (), [EngineCall.execCall query])

/-- POSIX `os.path.join` for the two-argument case used by the source. -/
def osPathJoin (a b : String) : String :=
  if b.startsWith "/" then b
  else if a == "" || a.endsWith "/" then a ++ b
  else a ++ "/" ++ b

/-- Method `save_table_as_parquet`: compose `file_path/file_name.parquet`
and copy the full table contents there in Parquet format. -/
def save_table_as_parquet (w : DuckDBWrapper) (E : Engine)
    (table_name file_path file_name : String) :
    Except PyError Unit × List EngineCall :=
  let full_path := osPathJoin file_path (file_name ++ ".parquet")
  match w.conn with
  | none => (Except.error (PyError.attributeError noneAttrMsg), [])
  | some _ =>
    let query :=
      "COPY (SELECT * FROM " ++ table_name ++ ") TO '" ++ full_path ++
        "' (FORMAT PARQUET)"
    match E.exec query none with
    | Except.error m =>
      (Except.error (PyError.duckdbError m), [EngineCall.execCall query])
    | Except.ok _ => (Except.ok (), [EngineCall.execCall query])

/-- Whether an error is the connectivity class of the spec's taxonomy
(the `ConnectionError` raised for an operation without an open connection). -/
def PyError.isConnectivity : PyError → Bool
  | PyError.connectionError _ => true
  | _ => false

/-- Whether a query result is a failure of the connectivity class. -/
def failsWithConnectivity (r : Except PyError (List Row)) : Bool :=
  match r with
  | Except.error e => e.isConnectivity
  | Except.ok _ => false

/-- A facade whose connection was never opened (or was closed). -/
def closedWrapper : DuckDBWrapper := { conn := none, dbFile := none }

/-- A facade with a freshly opened in-memory connection. -/
def openWrapper : DuckDBWrapper := { conn := some { config := [] }, dbFile := none }

/-- Cursor of a statement with no columns and no rows. -/
def emptyCursor : Cursor := { description := [], rows := [] }

/-- An engine on which every interaction succeeds trivially. -/
def trivialEngine : Engine where
  exec := fun _ _ => Except.ok emptyCursor
  installExt := fun _ => Except.ok ()
  loadExt := fun _ => Except.ok ()

/-- An identity service that rejects the caller's identity. -/
def deniedSession : StsSession where
  get_caller_identity := Except.error (PyError.credentialError "InvalidClientTokenId")
  get_frozen_credentials := Except.error (PyError.credentialError "InvalidClientTokenId")
  region_name := "us-east-1"

/-- Inserting a fresh key into a Python dict appends it. -/
theorem pyDictInsert_of_not_mem (d : Row) (k : String) (v : Value)
    (h : k ∉ d.map Prod.fst) : pyDictInsert d k v = d ++ [(k, v)] := by
  have hany : d.any (fun p => p.1 == k) = false := by
    simp only [List.any_eq_false, beq_iff_eq]
    intro p hp hpk
    exact h (hpk ▸ List.mem_map_of_mem Prod.fst hp)
  simp [pyDictInsert, hany]

/-- Folding Python dict insertion over pairs with globally distinct keys
just appends the pairs. -/
theorem pyDict_go_of_nodup (pairs : List (String × Value)) :
    ∀ acc : Row, (acc.map Prod.fst ++ pairs.map Prod.fst).Nodup →
      pairs.foldl (fun d p => pyDictInsert d p.1 p.2) acc = acc ++ pairs := by
  induction pairs with
  | nil => intro acc _; simp
  | cons hd tl ih =>
    intro acc h
    have hnotmem : hd.1 ∉ acc.map Prod.fst := by
      rw [List.nodup_append] at h
      intro hmem
      exact h.2.2 hmem (by simp)
    rw [List.foldl_cons, pyDictInsert_of_not_mem _ _ _ hnotmem,
      ih (acc ++ [hd]) (by simpa [List.append_assoc] using h)]
    simp

/-- `dict(pairs)` with pairwise distinct keys is the pairs themselves. -/
theorem pyDict_of_nodup (pairs : List (String × Value))
    (h : (pairs.map Prod.fst).Nodup) : pyDict pairs = pairs := by
  simpa [pyDict] using pyDict_go_of_nodup pairs [] (by simpa using h)

/-- The key list of a row dict built from distinct column names and a row
of matching arity is exactly the column-name list. -/
theorem pyDict_zip_keys (columns : List String) (row : List Value)
    (hnd : columns.Nodup) (hlen : row.length = columns.length) :
    (pyDict (columns.zip row)).map Prod.fst = columns := by
  have hfst : (columns.zip row).map Prod.fst = columns :=
    List.map_fst_zip columns row (le_of_eq hlen.symm)
  rw [pyDict_of_nodup _ (by rw [hfst]; exact hnd), hfst]

/-- C1 counterexample: on a facade whose connection was never opened,
`execute_query` does fail and performs no engine interaction, but the
raised error is the AttributeError of calling `.execute` on `None`, not an
error of the connectivity class, so the claim as stated is false. -/
theorem c1_counterexample :
    (execute_query closedWrapper trivialEngine "SELECT 1" none).1 =
      Except.error (PyError.attributeError noneAttrMsg) ∧
    failsWithConnectivity
      (execute_query closedWrapper trivialEngine "SELECT 1" none).1 = false :=
  ⟨rfl, rfl⟩

/-- C1 amended: on a facade whose connection has not been opened (or has
been closed), every query-dependent operation fails and performs no engine
interaction, but only `connect_to_s3` fails with the connectivity-class
`ConnectionError`; `execute_query`, the drained `execute_query_fetch_one`
generator, `read_file` (on a recognized file type), `create_table` (on a
non-empty dataset), `save_parquet` and `save_table_as_parquet` fail with
the `AttributeError` of calling `.execute` on `None`. -/
theorem c1_closed_connection_behaviour (w : DuckDBWrapper) (E : Engine)
    (s : StsSession) (q fp ft tn dir fn : String) (p : Option PyParams)
    (sc fc : Option (List String)) (data : List Row)
    (hconn : w.conn = none) (hft : ft = "csv" ∨ ft = "parquet") (hd : data ≠ []) :
    execute_query w E q p = (Except.error (PyError.attributeError noneAttrMsg), []) ∧
    Gen.drain (Gen.mk q p) w E =
      (Except.error (PyError.attributeError noneAttrMsg), []) ∧
    read_file w E fp ft sc fc =
      (Except.error (PyError.attributeError noneAttrMsg), []) ∧
    create_table w E tn data =
      (Except.error (PyError.attributeError noneAttrMsg), []) ∧
    save_parquet w E data fp =
      (Except.error (PyError.attributeError noneAttrMsg), []) ∧
    save_table_as_parquet w E tn dir fn =
      (Except.error (PyError.attributeError noneAttrMsg), []) ∧
    connect_to_s3 w E s = (Except.error (PyError.connectionError connectMsg), w, []) := by
  have hemp : data.isEmpty = false := by
    cases data with
    | nil => exact absurd rfl hd
    | cons a l => rfl
  refine ⟨?_, ?_, ?_, ?_, ?_, ?_, ?_⟩
  · simp [execute_query, hconn]
  · simp [Gen.drain, hconn]
  · rcases hft with h | h <;> simp [read_file, h, execute_query, hconn]
  · simp [create_table, hemp, hconn]
  · simp [save_parquet, hconn]
  · simp [save_table_as_parquet, hconn]
  · simp [connect_to_s3, hconn]

/-- C1 witness: the amended behaviour at concrete inputs on a
never-opened facade. -/
theorem c1_witness :
    execute_query closedWrapper trivialEngine "SELECT 1" none =
      (Except.error (PyError.attributeError noneAttrMsg), []) ∧
    Gen.drain (Gen.mk "SELECT 1" none) closedWrapper trivialEngine =
      (Except.error (PyError.attributeError noneAttrMsg), []) ∧
    read_file closedWrapper trivialEngine "data.csv" "csv" none none =
      (Except.error (PyError.attributeError noneAttrMsg), []) ∧
    create_table closedWrapper trivialEngine "t" [[("a", Value.int 1)]] =
      (Except.error (PyError.attributeError noneAttrMsg), []) ∧
    save_parquet closedWrapper trivialEngine [[("a", Value.int 1)]] "out.parquet" =
      (Except.error (PyError.attributeError noneAttrMsg), []) ∧
    save_table_as_parquet closedWrapper trivialEngine "t" "/tmp" "f" =
      (Except.error (PyError.attributeError noneAttrMsg), []) ∧
    connect_to_s3 closedWrapper trivialEngine deniedSession =
      (Except.error (PyError.connectionError connectMsg), closedWrapper, []) :=
  c1_closed_connection_behaviour closedWrapper trivialEngine deniedSession
    "SELECT 1" "data.csv" "csv" "t" "/tmp" "f" none none none
    [[("a", Value.int 1)]] rfl (Or.inl rfl) (List.cons_ne_nil _ _)

/-- An engine that answers one fixed SELECT with a two-column,
two-row cursor and rejects every other statement. -/
def resultEngine : Engine where
  exec := fun q _ =>
    if q == "SELECT a, b FROM t" then
      Except.ok { description := ["a", "b"],
                  rows := [[Value.int 1, Value.str "x"], [Value.int 2, Value.null]] }
    else Except.error "Catalog Error"
  installExt := fun _ => Except.ok ()
  loadExt := fun _ => Except.ok ()

/-- C2: on an open connection, when the engine answers the statement with
a cursor whose column names are distinct and whose rows match the
description's arity, `execute_query` returns rows whose key list is, for
every row, exactly the ordered column-name list captured from the cursor
description at execution time. -/
theorem c2_execute_query_columns (w : DuckDBWrapper) (E : Engine)
    (q : String) (p : Option PyParams) (c : Conn) (cur : Cursor)
    (hconn : w.conn = some c) (hE : E.exec q p = Except.ok cur)
    (hnd : cur.description.Nodup)
    (hlen : ∀ r ∈ cur.rows, r.length = cur.description.length) :
    ∃ rows, (execute_query w E q p).1 = Except.ok rows ∧
      ∀ row ∈ rows, row.map Prod.fst = cur.description := by
  refine ⟨cur.rows.map (fun row => pyDict (cur.description.zip row)), ?_, ?_⟩
  · simp [execute_query, hconn, hE]
  · intro row hrow
    rcases List.mem_map.mp hrow with ⟨r, hr, rfl⟩
    exact pyDict_zip_keys _ _ hnd (hlen r hr)

/-- C2 witness: the column invariant at a concrete statement and engine. -/
theorem c2_witness :
    ∃ rows,
      (execute_query openWrapper resultEngine "SELECT a, b FROM t" none).1 =
        Except.ok rows ∧
      ∀ row ∈ rows, row.map Prod.fst = ["a", "b"] :=
  c2_execute_query_columns openWrapper resultEngine "SELECT a, b FROM t" none
    { config := [] }
    { description := ["a", "b"],
      rows := [[Value.int 1, Value.str "x"], [Value.int 2, Value.null]] }
    rfl rfl (by decide) (by decide)

/-- The fetchone loop produces one dict per cursor row, in cursor order. -/
theorem fetchLoop_eq_map (columns : List String) (rows : List (List Value)) :
    fetchLoop columns rows = rows.map (fun row => pyDict (columns.zip row)) := by
  induction rows with
  | nil => rfl
  | cons r rs ih => simp [fetchLoop, ih]

/-- C3: for the same facade state, engine, statement and params, draining
the generator returned by `execute_query_fetch_one` gives exactly the
result of `execute_query` — the same row dicts in the same order on
success, and the same raised error otherwise — with the same engine
interactions. -/
theorem c3_streaming_eq_eager (w : DuckDBWrapper) (E : Engine)
    (q : String) (p : Option PyParams) :
    Gen.drain (execute_query_fetch_one w E q p).1 w E = execute_query w E q p := by
  unfold execute_query_fetch_one Gen.drain execute_query
  cases hc : w.conn with
  | none => rfl
  | some c =>
    cases hE : E.exec q p with
    | error m => rfl
    | ok cur => simp [fetchLoop_eq_map]

/-- C4: on an open connection, if the identity check fails, or the
identity check passes and the credential fetch fails, `connect_to_s3`
propagates that error, leaves the facade (in particular the session
configuration) unchanged, and performs no engine interaction at all: no
`SET` of any credential key, no extension install, no extension load. -/
theorem c4_connect_to_s3_no_partial (w : DuckDBWrapper) (E : Engine)
    (s : StsSession) (c : Conn) (e : PyError) (hconn : w.conn = some c)
    (h : s.get_caller_identity = Except.error e ∨
      (s.get_caller_identity = Except.ok () ∧
        s.get_frozen_credentials = Except.error e)) :
    connect_to_s3 w E s = (Except.error e, w, []) := by
  rcases h with h1 | ⟨h1, h2⟩
  · simp [connect_to_s3, hconn, h1]
  · simp [connect_to_s3, hconn, h1, h2]

/-- C4 witness: an identity service that rejects the caller leaves a
concrete open facade untouched. -/
theorem c4_witness :
    connect_to_s3 openWrapper trivialEngine deniedSession =
      (Except.error (PyError.credentialError "InvalidClientTokenId"),
       openWrapper, []) :=
  c4_connect_to_s3_no_partial openWrapper trivialEngine deniedSession
    { config := [] } (PyError.credentialError "InvalidClientTokenId")
    rfl (Or.inl rfl)

/-- A non-empty list is not `isEmpty`. -/
theorem isEmptyFalseOfNeNil {α : Type} {l : List α} (h : l ≠ []) :
    l.isEmpty = false := by
  cases l with
  | nil => exact absurd rfl h
  | cons a t => rfl

/-- C5: with non-empty `select_columns` and `filter_conditions` the
statement `read_file` builds is `SELECT <columns comma-joined> FROM
read_<file_type>('<path>')` followed by a WHERE clause of the
individually parenthesized conditions joined by AND; with both omitted it
is `SELECT * FROM read_<file_type>('<path>')`; and on a recognized file
type `read_file` executes exactly that statement on the engine. -/
theorem c5_read_file_statement (w : DuckDBWrapper) (E : Engine)
    (c : Conn) (fp ft : String) (cols conds : List String)
    (hconn : w.conn = some c) (hft : ft = "csv" ∨ ft = "parquet")
    (hc : cols ≠ []) (hf : conds ≠ []) :
    read_file_query fp ft (some cols) (some conds) =
      "SELECT " ++ String.intercalate ", " cols ++ " FROM read_" ++ ft ++
        "('" ++ fp ++ "')" ++ " WHERE " ++
        String.intercalate " AND " (conds.map (fun cond => "(" ++ cond ++ ")")) ∧
    read_file_query fp ft none none =
      "SELECT * FROM read_" ++ ft ++ "('" ++ fp ++ "')" ∧
    (read_file w E fp ft (some cols) (some conds)).2 =
      [EngineCall.execCall (read_file_query fp ft (some cols) (some conds))] := by
  have hce := isEmptyFalseOfNeNil hc
  have hfe := isEmptyFalseOfNeNil hf
  refine ⟨?_, rfl, ?_⟩
  · simp [read_file_query, pyTruthyList, hce, hfe]
  · have hcont : (["csv", "parquet"].contains ft) = true := by
      rcases hft with h | h <;> simp [h]
    simp only [read_file, hcont, Bool.not_true, Bool.false_eq_true, if_false]
    unfold execute_query
    rw [hconn]
    cases E.exec (read_file_query fp ft (some cols) (some conds)) none <;> rfl

/-- C5 witness: the claim's own example, on a concrete open facade. -/
theorem c5_witness :
    read_file_query "path" "csv" (some ["a", "b"]) (some ["a > 1"]) =
      "SELECT a, b FROM read_csv('path') WHERE (a > 1)" ∧
    read_file_query "path" "csv" none none = "SELECT * FROM read_csv('path')" ∧
    (read_file openWrapper trivialEngine "path" "csv"
        (some ["a", "b"]) (some ["a > 1"])).2 =
      [EngineCall.execCall "SELECT a, b FROM read_csv('path') WHERE (a > 1)"] := by
  have h := c5_read_file_statement openWrapper trivialEngine { config := [] }
    "path" "csv" ["a", "b"] ["a > 1"] rfl (Or.inl rfl)
    (List.cons_ne_nil _ _) (List.cons_ne_nil _ _)
  refine ⟨?_, ?_, ?_⟩
  · rw [h.1]; rfl
  · rw [h.2.1]; rfl
  · rw [h.2.2, h.1]; rfl

/-- C6: for any `file_type` other than csv and parquet, `read_file`
raises the `ValueError` of the validation check and performs no engine
interaction, whatever the facade state and the other arguments. -/
theorem c6_read_file_rejects_bad_type (w : DuckDBWrapper) (E : Engine)
    (fp ft : String) (sc fc : Option (List String))
    (h1 : ft ≠ "csv") (h2 : ft ≠ "parquet") :
    read_file w E fp ft sc fc =
      (Except.error
        (PyError.valueError "file_type must be either 'csv' or 'parquet'"), []) := by
  have hcont : (["csv", "parquet"].contains ft) = false := by
    simp [List.contains, h1, h2]
  simp only [read_file]
  rw [hcont]
  rfl

/-- C6 witness: the xml file type is rejected before any engine call. -/
theorem c6_witness :
    read_file openWrapper trivialEngine "data.xml" "xml" none none =
      (Except.error
        (PyError.valueError "file_type must be either 'csv' or 'parquet'"), []) :=
  c6_read_file_rejects_bad_type openWrapper trivialEngine "data.xml" "xml"
    none none (by decide) (by decide)

/-- C7: `create_table` on an empty dataset raises the `ValueError` of the
validation check, whatever the facade state, and performs no engine
interaction, so no relation is created; on a non-empty dataset with an
open connection it executes exactly
`CREATE TABLE <table_name> AS SELECT * FROM df`, the name verbatim. -/
theorem c7_create_table_validation (w : DuckDBWrapper) (E : Engine)
    (tn : String) (data : List Row) (c : Conn)
    (hconn : w.conn = some c) (hd : data ≠ []) :
    create_table w E tn [] =
      (Except.error (PyError.valueError "No data provided to create the table"), []) ∧
    (create_table w E tn data).2 =
      [EngineCall.execCall ("CREATE TABLE " ++ tn ++ " AS SELECT * FROM df")] := by
  refine ⟨rfl, ?_⟩
  have hemp := isEmptyFalseOfNeNil hd
  simp only [create_table, hemp, Bool.false_eq_true, if_false]
  rw [hconn]
  cases E.exec ("CREATE TABLE " ++ tn ++ " AS SELECT * FROM df") none <;> rfl

/-- C7 witness: empty and one-row datasets on a concrete open facade. -/
theorem c7_witness :
    create_table openWrapper trivialEngine "t" [] =
      (Except.error (PyError.valueError "No data provided to create the table"), []) ∧
    (create_table openWrapper trivialEngine "t" [[("a", Value.int 1)]]).2 =
      [EngineCall.execCall "CREATE TABLE t AS SELECT * FROM df"] := by
  have h := c7_create_table_validation openWrapper trivialEngine "t"
    [[("a", Value.int 1)]] { config := [] } rfl (List.cons_ne_nil _ _)
  exact ⟨h.1, by rw [h.2]; rfl⟩

/-- After `close`, no handle remains, whatever the prior state. -/
theorem close_conn_none (w : DuckDBWrapper) : ((close w).1).conn = none := by
  cases hc : w.conn <;> simp [close, hc]

/-- `close` on a facade with no open handle is a no-op. -/
theorem close_of_none (w : DuckDBWrapper) (h : w.conn = none) : close w = (w, []) := by
  simp [close, h]

/-- A scope body that raises an exception without touching the state. -/
def raisingBody (s : DuckDBWrapper) : Except PyError Unit × DuckDBWrapper :=
  (Except.error (PyError.valueError "boom"), s)

/-- C8: `close` is idempotent — on a never-opened or already-closed facade
it is a no-op, and a second `close` after any `close` is a no-op — and
leaving the `with` scope, whether the body returned or raised, leaves the
connection closed with no residual handle, so a subsequent `close` is a
no-op. -/
theorem c8_close_idempotent_and_scoped {α : Type} (w : DuckDBWrapper)
    (body : DuckDBWrapper → Except PyError α × DuckDBWrapper) :
    (w.conn = none → close w = (w, [])) ∧
    close (close w).1 = ((close w).1, []) ∧
    (withDuckDBWrapper w body).2.conn = none ∧
    close (withDuckDBWrapper w body).2 = ((withDuckDBWrapper w body).2, []) := by
  have h3 : (withDuckDBWrapper w body).2.conn = none := close_conn_none _
  exact ⟨close_of_none w, close_of_none _ (close_conn_none w), h3, close_of_none _ h3⟩

/-- C8 witness: a never-opened facade and a scope whose body raises. -/
theorem c8_witness :
    (closedWrapper.conn = none → close closedWrapper = (closedWrapper, [])) ∧
    close (close closedWrapper).1 = ((close closedWrapper).1, []) ∧
    (withDuckDBWrapper closedWrapper raisingBody).2.conn = none ∧
    close (withDuckDBWrapper closedWrapper raisingBody).2 =
      ((withDuckDBWrapper closedWrapper raisingBody).2, []) :=
  c8_close_idempotent_and_scoped closedWrapper raisingBody

/-- An engine on which the COPY of `save_parquet` to `out.parquet` fails
and every other statement succeeds trivially. -/
def copyFailEngine : Engine where
  exec := fun q _ =>
    if q == "COPY temp_table TO 'out.parquet'" then
      Except.error "IO Error: No such file or directory"
    else Except.ok emptyCursor
  installExt := fun _ => Except.ok ()
  loadExt := fun _ => Except.ok ()

/-- C9: on an open connection, when the engine accepts all three
statements, `save_parquet` executes exactly the staging CREATE, the COPY
to the destination, then the DROP of the temporary relation, in that
order; when the COPY fails, the engine error propagates and the DROP is
not executed — the trace stops at the COPY. -/
theorem c9_save_parquet_sequence (w : DuckDBWrapper) (E1 E2 : Engine)
    (data : List Row) (fn : String) (c : Conn) (m : String)
    (cur1 cur2 cur3 cur4 : Cursor) (hconn : w.conn = some c)
    (h1a : E1.exec "CREATE TEMPORARY TABLE temp_table AS SELECT * FROM df" none =
      Except.ok cur1)
    (h1b : E1.exec ("COPY temp_table TO '" ++ fn ++ "'") none = Except.ok cur2)
    (h1c : E1.exec "DROP TABLE temp_table" none = Except.ok cur3)
    (h2a : E2.exec "CREATE TEMPORARY TABLE temp_table AS SELECT * FROM df" none =
      Except.ok cur4)
    (h2b : E2.exec ("COPY temp_table TO '" ++ fn ++ "'") none = Except.error m) :
    save_parquet w E1 data fn =
      (Except.ok (),
       [EngineCall.execCall "CREATE TEMPORARY TABLE temp_table AS SELECT * FROM df",
        EngineCall.execCall ("COPY temp_table TO '" ++ fn ++ "'"),
        EngineCall.execCall "DROP TABLE temp_table"]) ∧
    save_parquet w E2 data fn =
      (Except.error (PyError.duckdbError m),
       [EngineCall.execCall "CREATE TEMPORARY TABLE temp_table AS SELECT * FROM df",
        EngineCall.execCall ("COPY temp_table TO '" ++ fn ++ "'")]) := by
  constructor
  · simp [save_parquet, hconn, h1a, h1b, h1c]
  · simp [save_parquet, hconn, h2a, h2b]

/-- C9 witness: a concrete dataset saved through a fully succeeding engine
and through one whose COPY fails. -/
theorem c9_witness :
    save_parquet openWrapper trivialEngine [[("a", Value.int 1)]] "out.parquet" =
      (Except.ok (),
       [EngineCall.execCall "CREATE TEMPORARY TABLE temp_table AS SELECT * FROM df",
        EngineCall.execCall "COPY temp_table TO 'out.parquet'",
        EngineCall.execCall "DROP TABLE temp_table"]) ∧
    save_parquet openWrapper copyFailEngine [[("a", Value.int 1)]] "out.parquet" =
      (Except.error (PyError.duckdbError "IO Error: No such file or directory"),
       [EngineCall.execCall "CREATE TEMPORARY TABLE temp_table AS SELECT * FROM df",
        EngineCall.execCall "COPY temp_table TO 'out.parquet'"]) := by
  have h := c9_save_parquet_sequence openWrapper trivialEngine copyFailEngine
    [[("a", Value.int 1)]] "out.parquet" { config := [] }
    "IO Error: No such file or directory"
    emptyCursor emptyCursor emptyCursor emptyCursor rfl rfl rfl rfl rfl rfl
  exact ⟨by rw [h.1]; rfl, by rw [h.2]; rfl⟩

/-- C10: calling `execute_query_fetch_one` only builds the suspended
generator — no engine interaction and no exception at call time, whatever
the facade state, the statement or the engine — and the failure surfaces
only when the sequence is drained: on a closed connection the drain raises
the `AttributeError`, and on an open connection with a statement the
engine rejects the drain raises the engine's error. -/
theorem c10_fetch_one_call_is_lazy (w wd : DuckDBWrapper) (E : Engine)
    (q : String) (p : Option PyParams) (m : String) (c : Conn)
    (hclosed : wd.conn = none) (hopen : w.conn = some c)
    (hbad : E.exec q p = Except.error m) :
    execute_query_fetch_one w E q p = (Gen.mk q p, []) ∧
    execute_query_fetch_one wd E q p = (Gen.mk q p, []) ∧
    Gen.drain (execute_query_fetch_one wd E q p).1 wd E =
      (Except.error (PyError.attributeError noneAttrMsg), []) ∧
    Gen.drain (execute_query_fetch_one w E q p).1 w E =
      (Except.error (PyError.duckdbError m), [EngineCall.execCall q]) := by
  refine ⟨rfl, rfl, ?_, ?_⟩
  · simp [Gen.drain, execute_query_fetch_one, hclosed]
  · simp [Gen.drain, execute_query_fetch_one, hopen, hbad]

/-- C10 witness: a malformed statement on an open facade and a statement
on a closed facade both succeed at call time and fail only at drain time. -/
theorem c10_witness :
    execute_query_fetch_one openWrapper resultEngine "SELEC" none =
      (Gen.mk "SELEC" none, []) ∧
    execute_query_fetch_one closedWrapper resultEngine "SELEC" none =
      (Gen.mk "SELEC" none, []) ∧
    Gen.drain (execute_query_fetch_one closedWrapper resultEngine "SELEC" none).1
        closedWrapper resultEngine =
      (Except.error (PyError.attributeError noneAttrMsg), []) ∧
    Gen.drain (execute_query_fetch_one openWrapper resultEngine "SELEC" none).1
        openWrapper resultEngine =
      (Except.error (PyError.duckdbError "Catalog Error"),
       [EngineCall.execCall "SELEC"]) :=
  c10_fetch_one_call_is_lazy openWrapper closedWrapper resultEngine "SELEC" none
    "Catalog Error" { config := [] } rfl rfl rfl

end DuckDB
